import Mathlib

/-
Verification development for the graphhopper-maps query orchestration
subsystem.  The definitions below are a shallow embedding of

  * QueryStore (waypoint state machine; src/unnamed/part_001)
  * the routing client request builder and the response geometry
    decoding pipeline (src/src/routing/Api.ts)
  * the action catalog (src/src/actions/Actions.ts)

TypeScript numbers are modelled as ℚ where they carry coordinate data,
and as Int/Nat where the source performs 32-bit bitwise arithmetic
(polyline decoding).  JavaScript 32-bit bitwise semantics are made
explicit with `% 4294967296` style conversions.
-/

namespace GH

/-! ## Data model (QueryStore, part_001 lines 14-38; Api.ts lines 9-105) -/

structure Coordinate where
  lat : ℚ
  lng : ℚ
deriving DecidableEq

inductive QueryPointType where
  | From
  | To
  | Via
deriving DecidableEq

structure QueryPoint where
  coordinate : Coordinate
  queryText : String
  isInitialized : Bool
  color : String
  id : Nat
  type : QueryPointType
deriving DecidableEq

structure RoutingFeature where
  elevation : Bool
deriving DecidableEq

structure RoutingVehicle where
  key : String
  version : String
  import_date : String
  features : RoutingFeature
deriving DecidableEq

/-- ApiInfo (Api.ts lines 47-52).  `bbox` is `[number, number, number, number]`. -/
structure ApiInfo where
  import_date : String
  version : String
  bbox : ℚ × ℚ × ℚ × ℚ
  vehicles : List RoutingVehicle
deriving DecidableEq

/-- QueryStoreState (part_001 lines 19-23).  `routingVehicle` is an
`Option`: `none` models the JavaScript `undefined` that
`action.result.vehicles[0]` produces when the vehicle list is empty;
in every other circumstance the field is `some`. -/
structure QueryStoreState where
  queryPoints : List QueryPoint
  nextId : Nat
  routingVehicle : Option RoutingVehicle
deriving DecidableEq

/-- The action catalog (Actions.ts).  The source matches actions with
`instanceof`; a closed inductive type gives the same dispatch.
`RouteReceived` and `ClearRoute` are carried by the bus but fall through
to the reducer's default branch. -/
inductive Action where
  | SetPoint (point : QueryPoint)
  | InvalidatePoint (point : QueryPoint)
  | ClearPoints
  | AddPoint (atIndex : Int) (coordinate : Coordinate) (isInitialized : Bool)
  | RemovePoint (point : QueryPoint)
  | InfoReceived (result : ApiInfo)
  | SetVehicle (vehicle : RoutingVehicle)
  | RouteReceived
  | ClearRoute
deriving DecidableEq

/-! ## Routing client: request building (Api.ts lines 7, 11-30, 326-340) -/

def ghKey : String := "fb45b8b2-fdda-4093-ac1a-8b57b4e50add"

/-- RoutingArgs (Api.ts lines 11-16).  The TypeScript interface declares
`points`, `host?`, `basePath?`, `vehicle?`; the call site in
`routeIfAllPointsSet` additionally passes `key` and `points_encoded`
properties, which `createRequest` never reads — they are carried here so
that that independence is expressible. -/
structure RoutingArgs where
  points : List (ℚ × ℚ)
  host : Option String := none
  basePath : Option String := none
  vehicle : Option String := none
  key : Option String := none
  points_encoded : Option Bool := none
deriving DecidableEq

/-- RoutingRequest (Api.ts lines 18-30).  The TypeScript property names
`'alternative_route.max_paths'` and `'ch.disable'` contain dots and are
rendered here as `alternative_route_max_paths` and `ch_disable`. -/
structure RoutingRequest where
  points : List (ℚ × ℚ)
  vehicle : String
  locale : String
  debug : Bool
  points_encoded : Bool
  instructions : Bool
  elevation : Bool
  optimize : String
  alternative_route_max_paths : Nat
  ch_disable : Bool
  algorithm : String
deriving DecidableEq

/-- JavaScript `value || fallback` on an optional string: both
`undefined` and the empty string are falsy. -/
def jsOrString (value : Option String) (fallback : String) : String :=
  match value with
  | some s => if s = "" then fallback else s
  | none => fallback

/-- createRequest (Api.ts lines 326-340). -/
def createRequest (args : RoutingArgs) : RoutingRequest :=
  { vehicle := jsOrString args.vehicle "car"
    elevation := false
    debug := false
    instructions := true
    locale := "en"
    optimize := "false"
    points_encoded := true
    alternative_route_max_paths := 2
    ch_disable := true
    algorithm := "alternative_route"
    points := args.points }

/-! ## QueryStore (part_001) -/

/-- getMarkerColor (part_001 lines 42-51). -/
def getMarkerColor (type : QueryPointType) : String :=
  match type with
  | QueryPointType.From => "#417900"
  | QueryPointType.To => "#F97777"
  | QueryPointType.Via => "#76D0F7"

/-- getPointType (part_001 lines 53-57). -/
def getPointType (index : Nat) (numberOfPoints : Nat) : QueryPointType :=
  if index = 0 then QueryPointType.From
  else if index = numberOfPoints - 1 then QueryPointType.To
  else QueryPointType.Via

/-- routeIfAllPointsSet (part_001 lines 59-67): when the state has more
than one waypoint and every waypoint is initialized, a `route` call is
made with the arguments returned as `Except.ok (some args)`;
`Except.ok none` means the guard failed and no call was made.  When the
guard holds but `routingVehicle` is the JavaScript `undefined` (modelled
`none`), evaluating `state.routingVehicle.key` throws a TypeError before
`route` is invoked — no request is emitted and the transition aborts;
`Except.error` models that throw. -/
def routeIfAllPointsSet (state : QueryStoreState) : Except String (Option RoutingArgs) :=
  if 1 < state.queryPoints.length ∧ state.queryPoints.all (fun point => point.isInitialized) then
    match state.routingVehicle with
    | some vehicle =>
        Except.ok (some
          { points := state.queryPoints.map (fun point => (point.coordinate.lng, point.coordinate.lat))
            key := some ghKey
            points_encoded := some false
            vehicle := some vehicle.key })
    | none => Except.error "TypeError: cannot read key of undefined"
  else Except.ok none

/-- getEmptyPoint (part_001 lines 69-78). -/
def getEmptyPoint (id : Nat) (type : QueryPointType) : QueryPoint :=
  { isInitialized := false
    queryText := ""
    coordinate := { lng := 0, lat := 0 }
    id := id
    color := getMarkerColor type
    type := type }

/-- getInitialState (part_001 lines 80-94). -/
def getInitialState : QueryStoreState :=
  { queryPoints := [getEmptyPoint 0 QueryPointType.From, getEmptyPoint 1 QueryPointType.To]
    nextId := 2
    routingVehicle := some { key := "", import_date := "", version := "", features := { elevation := false } } }

/-- replace (part_001 lines 96-105): rebuild the list, substituting
`newPoint` for every point whose id matches. -/
def replace : List QueryPoint → QueryPoint → List QueryPoint
  | [], _ => []
  | point :: rest, newPoint =>
      (if point.id == newPoint.id then newPoint else point) :: replace rest newPoint

/-- JavaScript number-to-string coercion used to build
`action.coordinate.lng + ', ' + action.coordinate.lat` (part_001 line
141).  The exact rendering of a JS double is abstracted as a fraction
rendering; no claim depends on this text. -/
def jsNumberToString (q : ℚ) : String :=
  toString q.num ++ "/" ++ toString q.den

/-- `Array.prototype.splice(start, 0, item)` index clamping: a negative
start counts from the end (clamped at 0), a start beyond the length is
clamped to the length. -/
def spliceIndex (atIndex : Int) (len : Nat) : Nat :=
  if atIndex < 0 then ((len : Int) + atIndex).toNat else min atIndex.toNat len

/-- `tmp.splice(i, 0, p)` with a clamped index `i`: insert `p` at index `i`. -/
def spliceInsert (l : List QueryPoint) (i : Nat) (p : QueryPoint) : List QueryPoint :=
  l.take i ++ p :: l.drop i

/-- The `tmp.map((point, i) => ...)` recoloring pass shared by the
AddPoint branch (part_001 lines 154-157, with `n = tmp.length`) and the
RemovePoint branch (lines 171-174, with `n = state.queryPoints.length - 1`):
each point at running index `i` gets `type := getPointType i n` and the
matching marker color. -/
def assignRolesAux (n : Nat) : Nat → List QueryPoint → List QueryPoint
  | _, [] => []
  | i, point :: rest =>
      { point with type := getPointType i n, color := getMarkerColor (getPointType i n) }
        :: assignRolesAux n (i + 1) rest

/-- reduce (part_001 lines 107-199), the pure state transition.  The
routing side effect is modelled separately by `emitsRoute`. -/
def reduce (state : QueryStoreState) (action : Action) : QueryStoreState :=
  match action with
  | Action.SetPoint point =>
      { state with queryPoints := replace state.queryPoints point }
  | Action.InvalidatePoint point =>
      { state with queryPoints := replace state.queryPoints { point with isInitialized := false } }
  | Action.ClearPoints =>
      -- The source object literal also writes a junk `point: {lat: 0, lng: 0}`
      -- property (line 130) that is not part of the QueryPoint interface;
      -- the `coordinate` field itself is untouched.
      { state with queryPoints := state.queryPoints.map (fun point =>
          { point with queryText := "", isInitialized := false }) }
  | Action.AddPoint atIndex coordinate isInitialized =>
      let queryText :=
        if isInitialized then
          jsNumberToString coordinate.lng ++ ", " ++ jsNumberToString coordinate.lat
        else ""
      let tmp := spliceInsert state.queryPoints (spliceIndex atIndex state.queryPoints.length)
        { coordinate := coordinate
          id := state.nextId
          queryText := queryText
          color := ""
          isInitialized := isInitialized
          type := QueryPointType.Via }
      { state with
          nextId := state.nextId + 1
          queryPoints := assignRolesAux tmp.length 0 tmp }
  | Action.RemovePoint point =>
      let filtered := state.queryPoints.filter fun p => p.id != point.id
      { state with queryPoints := assignRolesAux (state.queryPoints.length - 1) 0 filtered }
  | Action.InfoReceived result =>
      { state with routingVehicle :=
          match result.vehicles.find? (fun vehicle => vehicle.key == "car") with
          | some car => some car
          | none => result.vehicles[0]? }
  | Action.SetVehicle vehicle =>
      { state with routingVehicle := some vehicle }
  | Action.RouteReceived => state
  | Action.ClearRoute => state

/-- The branches of `reduce` that invoke `routeIfAllPointsSet(newState)`
(part_001 lines 114, 165, 180, 195): SetPoint, AddPoint, RemovePoint and
SetVehicle.  `Except.ok (some args)` is the emitted `route` call,
`Except.ok none` means no request was emitted, `Except.error` the
TypeError thrown on an undefined selected vehicle. -/
def emitsRoute (state : QueryStoreState) (action : Action) : Except String (Option RoutingArgs) :=
  match action with
  | Action.SetPoint point => routeIfAllPointsSet (reduce state (Action.SetPoint point))
  | Action.AddPoint i c b => routeIfAllPointsSet (reduce state (Action.AddPoint i c b))
  | Action.RemovePoint point => routeIfAllPointsSet (reduce state (Action.RemovePoint point))
  | Action.SetVehicle vehicle => routeIfAllPointsSet (reduce state (Action.SetVehicle vehicle))
  | _ => Except.ok none

/-- Applying a sequence of actions to a state, earliest first. -/
def applyActions (state : QueryStoreState) (actions : List Action) : QueryStoreState :=
  actions.foldl reduce state

/-- The action kinds whose reducer branch calls `routeIfAllPointsSet`. -/
def isRouteTriggering : Action → Bool
  | Action.SetPoint _ => true
  | Action.AddPoint _ _ _ => true
  | Action.RemovePoint _ => true
  | Action.SetVehicle _ => true
  | _ => false

def isAddPoint : Action → Bool
  | Action.AddPoint _ _ _ => true
  | _ => false

/-! ## Properties of waypoint lists, written from the spec's words -/

/-- Modelled from the spec: the role the spec assigns to index `i` of an
`n`-element waypoint list — Start (`From`) at index 0, End (`To`) at the
last index, Via everywhere in the interior. -/
def specRole (i n : Nat) : QueryPointType :=
  if i = 0 then QueryPointType.From
  else if i + 1 = n then QueryPointType.To
  else QueryPointType.Via

def rolesColorsOkAux (n : Nat) : Nat → List QueryPoint → Bool
  | _, [] => true
  | i, point :: rest =>
      decide (point.type = specRole i n) &&
        decide (point.color = getMarkerColor (specRole i n)) &&
        rolesColorsOkAux n (i + 1) rest

/-- Every waypoint's role matches its position (Start / Via / End) and
its color is the marker color of that role. -/
def rolesColorsOk (points : List QueryPoint) : Bool :=
  rolesColorsOkAux points.length 0 points

def pointIds (state : QueryStoreState) : List Nat :=
  state.queryPoints.map fun point => point.id

/-- Session id hygiene: the current waypoint ids are pairwise distinct
and all strictly below `nextId`. -/
def stateInv (state : QueryStoreState) : Prop :=
  (pointIds state).Nodup ∧ ∀ i ∈ pointIds state, i < state.nextId

def isAddRemove : Action → Bool
  | Action.AddPoint _ _ _ => true
  | Action.RemovePoint _ => true
  | _ => false

/-- In a RemovePoint action, the removed id actually occurs in the list. -/
def removeTargetPresent (state : QueryStoreState) : Action → Bool
  | Action.RemovePoint point => state.queryPoints.any fun p => p.id == point.id
  | _ => true

/-- A sequence of AddPoint / RemovePoint actions in which every
RemovePoint names an id present at the time it is applied. -/
def validAddRemoveSeq : QueryStoreState → List Action → Bool
  | _, [] => true
  | s, a :: rest =>
      isAddRemove a && removeTargetPresent s a && validAddRemoveSeq (reduce s a) rest

/-! ## Routing client: polyline decoding (Api.ts lines 271-318) -/

/-- Signed 32-bit value of a bit pattern in `[0, 2^32)`. -/
def ofNat32 (n : Nat) : Int :=
  if n < 2147483648 then (n : Int) else (n : Int) - 4294967296

/-- Two's-complement 32-bit pattern of an integer (JavaScript ToInt32). -/
def toNat32 (x : Int) : Nat := (x % 4294967296).toNat

/-- JavaScript `a | b` on numbers: ToInt32 both, bitwise or, signed result. -/
def jsOr (a b : Int) : Int := ofNat32 (Nat.lor (toNat32 a) (toNat32 b))

/-- JavaScript `a & b`. -/
def jsAnd (a b : Int) : Int := ofNat32 (Nat.land (toNat32 a) (toNat32 b))

/-- JavaScript `a << s`: shift count taken mod 32, result truncated to 32 bits. -/
def jsShl (a : Int) (s : Nat) : Int :=
  ofNat32 (Nat.shiftLeft (toNat32 a) (s % 32) % 4294967296)

/-- JavaScript `a >> 1` on an int32 value: arithmetic shift, i.e. floor
division by 2. -/
def jsShr1 (a : Int) : Int := Int.fdiv a 2

/-- One `do { b = encoded.charCodeAt(index++) - 63; result |= (b & 0x1f)
<< shift; shift += 5 } while (b >= 0x20)` varint read (Api.ts lines
283-287).  Returns the accumulated `result` and the unconsumed rest of
the character codes.  Running past the end of the string yields NaN in
JavaScript, which contributes nothing and ends the loop; the empty-list
case mirrors that. -/
def decodeVarint : List Nat → Nat → Int → Int × List Nat
  | [], _, result => (result, [])
  | c :: rest, shift, result =>
      let b : Int := (c : Int) - 63
      let result1 := jsOr result (jsShl (jsAnd b 31) shift)
      if 32 ≤ b then decodeVarint rest (shift + 5) result1
      else (result1, rest)

/-- Zig-zag sign decoding: `result & 1 ? ~(result >> 1) : result >> 1`. -/
def zigzagDecode (result : Int) : Int :=
  if result % 2 = 1 then -(jsShr1 result) - 1 else jsShr1 result

/-- The `while (index < len)` loop of decodePath (Api.ts lines 279-314):
read a latitude delta, a longitude delta (and an elevation delta in the
3-D variant), add them to the running sums, and emit
`[lng * 1e-5, lat * 1e-5]` (and `ele / 100`).  The loop is driven by a
fuel bound; every iteration consumes at least one character, so fuel
equal to the number of characters is exact. -/
def decodePathAux : Nat → List Nat → Int → Int → Int → Bool → List (List ℚ)
  | _, [], _, _, _, _ => []
  | 0, _ :: _, _, _, _, _ => []
  | fuel + 1, c :: rest, lat, lng, ele, is3D =>
      let latRead := decodeVarint (c :: rest) 0 0
      let lat1 := lat + zigzagDecode latRead.1
      let lngRead := decodeVarint latRead.2 0 0
      let lng1 := lng + zigzagDecode lngRead.1
      if is3D then
        let eleRead := decodeVarint lngRead.2 0 0
        let ele1 := ele + zigzagDecode eleRead.1
        [(lng1 : ℚ) / 100000, (lat1 : ℚ) / 100000, (ele1 : ℚ) / 100]
          :: decodePathAux fuel eleRead.2 lat1 lng1 ele1 is3D
      else
        [(lng1 : ℚ) / 100000, (lat1 : ℚ) / 100000]
          :: decodePathAux fuel lngRead.2 lat1 lng1 ele is3D

/-- decodePath (Api.ts lines 271-318).  `charCodeAt` agrees with
`Char.toNat` on the ASCII polyline alphabet. -/
def decodePath (encoded : String) (is3D : Bool) : List (List ℚ) :=
  let codes := encoded.data.map Char.toNat
  decodePathAux codes.length codes 0 0 0 is3D

/-- The reference polyline test vector (backtick written as `\x60`). -/
def encodedExample : String := "_p~iF~ps|U_ulLnnqC_mqNvxq\x60@"

/-! ## Routing client: instruction slicing (Api.ts lines 87-99, 258-269) -/

structure LineString where
  type : String
  coordinates : List (List ℚ)
deriving DecidableEq

structure Instruction where
  distance : ℚ
  interval : Nat × Nat
  points : List (List ℚ)
  sign : Int
  text : String
  time : ℚ
deriving DecidableEq

/-- Path (Api.ts lines 65-85); the `details` and scalar bookkeeping
fields are carried but never read by the modelled code. -/
structure RoutePath where
  distance : ℚ
  time : ℚ
  ascend : ℚ
  descend : ℚ
  points_encoded : Bool
  bbox : ℚ × ℚ × ℚ × ℚ
  instructions : List Instruction
  points_order : List Nat
  points : LineString
  snapped_waypoints : LineString
deriving DecidableEq

/-- JavaScript `Array.prototype.slice(start, stop)` for non-negative
indices: elements from `start` up to but excluding `stop`, clamped. -/
def jsSlice (l : List (List ℚ)) (start stop : Nat) : List (List ℚ) :=
  (l.drop start).take (stop - start)

/-- setPointsOnInstructions (Api.ts lines 258-269).  The
`if (path.instructions)` guard is always taken when the field is an
array (arrays are truthy in JavaScript, even empty ones). -/
def setPointsOnInstructions (path : RoutePath) : List Instruction :=
  path.instructions.map fun instruction =>
    { instruction with
        points := jsSlice path.points.coordinates instruction.interval.1 (instruction.interval.2 + 1) }

/-! ## Concrete example values used by witnesses and counterexamples -/

def carVehicle : RoutingVehicle :=
  { key := "car", version := "1", import_date := "2024", features := { elevation := false } }

def bikeVehicle : RoutingVehicle :=
  { key := "bike", version := "1", import_date := "2024", features := { elevation := true } }

def infoCarOnly : ApiInfo :=
  { import_date := "2024", version := "1", bbox := (0, 0, 0, 0), vehicles := [carVehicle] }

def infoBikeOnly : ApiInfo :=
  { import_date := "2024", version := "1", bbox := (0, 0, 0, 0), vehicles := [bikeVehicle] }

/-- A state whose two waypoints are both initialized. -/
def stateAllSet : QueryStoreState :=
  { queryPoints :=
      [{ coordinate := { lng := 1, lat := 2 }, queryText := "a", isInitialized := true,
         color := "#417900", id := 0, type := QueryPointType.From },
       { coordinate := { lng := 3, lat := 4 }, queryText := "b", isInitialized := true,
         color := "#F97777", id := 1, type := QueryPointType.To }]
    nextId := 2
    routingVehicle := some carVehicle }

/-- The same two initialized waypoints, but with the selected vehicle
still the JavaScript `undefined` (as after an `InfoReceived` whose
vehicles list was empty): reaching `routeIfAllPointsSet` here throws. -/
def readyNoVehicleState : QueryStoreState :=
  { queryPoints :=
      [{ coordinate := { lng := 1, lat := 2 }, queryText := "a", isInitialized := true,
         color := "#417900", id := 0, type := QueryPointType.From },
       { coordinate := { lng := 3, lat := 4 }, queryText := "b", isInitialized := true,
         color := "#F97777", id := 1, type := QueryPointType.To }]
    nextId := 2
    routingVehicle := none }

/-- A SetPoint action that re-submits the first waypoint of
`readyNoVehicleState` unchanged. -/
def setPointA : Action :=
  Action.SetPoint
    { coordinate := { lng := 1, lat := 2 }, queryText := "a", isInitialized := true,
      color := "#417900", id := 0, type := QueryPointType.From }

/-- A five-point decoded geometry with a single instruction covering
`interval = [0, 2]`. -/
def examplePath : RoutePath :=
  { distance := 10
    time := 10
    ascend := 0
    descend := 0
    points_encoded := true
    bbox := (0, 0, 4, 4)
    instructions :=
      [{ distance := 3, interval := (0, 2), points := [], sign := 0, text := "go", time := 3 }]
    points_order := []
    points := { type := "LineString"
                coordinates := [[0, 0], [1, 1], [2, 2], [3, 3], [4, 4]] }
    snapped_waypoints := { type := "LineString", coordinates := [] } }

def exampleInstruction : Instruction :=
  { distance := 3, interval := (0, 2), points := [], sign := 0, text := "go", time := 3 }

end GH

namespace GH

/-! ## Helper lemmas -/

/-- A clamped `drop`/`take` slice is the list of the existing elements
at the index range it names. -/
lemma drop_take_eq_filterMap_range {α : Type} :
    ∀ (k a : Nat) (l : List α), (l.drop a).take k = (List.range' a k).filterMap (fun i => l[i]?)
  | 0, _, _ => by simp
  | k + 1, a, l => by
    rw [List.range'_succ]
    by_cases h : a < l.length
    · rw [List.drop_eq_getElem_cons h, List.take_succ_cons]
      rw [List.filterMap_cons]
      simp only [List.getElem?_eq_getElem h]
      rw [← drop_take_eq_filterMap_range k (a + 1) l]
    · push_neg at h
      rw [List.drop_eq_nil_of_le h, List.take_nil]
      symm
      rw [List.filterMap_eq_nil_iff]
      intro i hi
      rcases List.mem_cons.mp hi with h1 | h1
      · exact List.getElem?_eq_none (by omega)
      · rw [List.mem_range'_1] at h1
        exact List.getElem?_eq_none (by omega)

/-- The reducer's positional role function agrees with the spec's
Start / End / Via description at every index and count. -/
lemma getPointType_eq_specRole (i n : Nat) : getPointType i n = specRole i n := by
  unfold getPointType specRole
  split_ifs <;> first | rfl | omega

lemma assignRolesAux_length (n : Nat) : ∀ (i : Nat) (l : List QueryPoint),
    (assignRolesAux n i l).length = l.length
  | _, [] => rfl
  | i, _ :: rest => by
    simp [assignRolesAux, assignRolesAux_length n (i + 1) rest]

lemma assignRolesAux_getElem (n : Nat) : ∀ (i : Nat) (l : List QueryPoint) (j : Nat),
    (assignRolesAux n i l)[j]? =
      (l[j]?).map (fun p =>
        { p with type := getPointType (i + j) n, color := getMarkerColor (getPointType (i + j) n) })
  | _, [], j => by simp [assignRolesAux]
  | i, p :: rest, 0 => by simp [assignRolesAux]
  | i, p :: rest, j + 1 => by
    have h := assignRolesAux_getElem n (i + 1) rest j
    simp only [assignRolesAux, List.getElem?_cons_succ, h]
    have h2 : i + 1 + j = i + (j + 1) := by omega
    rw [h2]

lemma assignRolesAux_map_id (n : Nat) : ∀ (i : Nat) (l : List QueryPoint),
    (assignRolesAux n i l).map (fun p => p.id) = l.map (fun p => p.id)
  | _, [] => rfl
  | i, p :: rest => by
    simp [assignRolesAux, assignRolesAux_map_id n (i + 1) rest]

lemma replace_map_id : ∀ (l : List QueryPoint) (q : QueryPoint),
    (replace l q).map (fun p => p.id) = l.map (fun p => p.id)
  | [], _ => rfl
  | p :: rest, q => by
    by_cases h : p.id = q.id
    · simp [replace, h, replace_map_id rest q]
    · have hb : (p.id == q.id) = false := by simpa using h
      simp [replace, hb, replace_map_id rest q]

/-- The recoloring pass establishes the role/color invariant by
construction when its count parameter is started consistently. -/
lemma rolesColorsOkAux_assign (n : Nat) : ∀ (i : Nat) (l : List QueryPoint),
    rolesColorsOkAux n i (assignRolesAux n i l) = true
  | _, [] => rfl
  | i, p :: rest => by
    simp [assignRolesAux, rolesColorsOkAux, getPointType_eq_specRole,
      rolesColorsOkAux_assign n (i + 1) rest]

/-- Removing by an id that occurs in a duplicate-free list shortens it
by exactly one. -/
lemma filter_ne_length_of_mem :
    ∀ (l : List QueryPoint) (x : Nat),
      ((l.map fun p => p.id).Nodup) → (∃ p ∈ l, p.id = x) →
      (l.filter fun p => p.id != x).length = l.length - 1
  | [], _, _, hex => by simp at hex
  | p :: rest, x, hnd, hex => by
    simp only [List.map_cons, List.nodup_cons] at hnd
    obtain ⟨hnotin, hndrest⟩ := hnd
    by_cases hx : p.id = x
    · have hfalse : (p.id != x) = false := by simp [hx]
      have hrest : rest.filter (fun q => q.id != x) = rest := by
        rw [List.filter_eq_self]
        intro q hq
        have hqx : q.id ≠ x := by
          intro hq2
          apply hnotin
          have hmem : q.id ∈ rest.map (fun p => p.id) := List.mem_map_of_mem _ hq
          rw [hq2, ← hx] at hmem
          exact hmem
        simpa using hqx
      simp [List.filter_cons, hfalse, hrest]
    · have htrue : (p.id != x) = true := by simp [hx]
      obtain ⟨q, hq, hqx⟩ := hex
      rcases List.mem_cons.mp hq with rfl | hqrest
      · exact absurd hqx hx
      · have hlen : 1 ≤ rest.length := List.length_pos.mpr (List.ne_nil_of_mem hqrest)
        have ih := filter_ne_length_of_mem rest x hndrest ⟨q, hqrest, hqx⟩
        simp only [List.filter_cons, htrue, if_true, List.length_cons, ih]
        omega

lemma spliceInsert_map_id_perm (l : List QueryPoint) (i : Nat) (p : QueryPoint) :
    ((spliceInsert l i p).map fun q => q.id).Perm (p.id :: l.map fun q => q.id) := by
  unfold spliceInsert
  have h1 : ((l.take i ++ p :: l.drop i).map fun q => q.id)
      = (l.take i).map (fun q => q.id) ++ p.id :: (l.drop i).map (fun q => q.id) := by
    simp
  rw [h1]
  refine List.Perm.trans List.perm_middle ?_
  rw [← List.map_append, List.take_append_drop]

/-- Every reducer transition preserves id hygiene: waypoint ids stay
pairwise distinct and strictly below `nextId`. -/
lemma stateInv_reduce (s : QueryStoreState) (a : Action) (h : stateInv s) :
    stateInv (reduce s a) := by
  obtain ⟨hnd, hlt⟩ := h
  cases a with
  | SetPoint p =>
      refine ⟨?_, ?_⟩
      · simpa [stateInv, pointIds, reduce, replace_map_id] using hnd
      · simpa [stateInv, pointIds, reduce, replace_map_id] using hlt
  | InvalidatePoint p =>
      refine ⟨?_, ?_⟩
      · simpa [stateInv, pointIds, reduce, replace_map_id] using hnd
      · simpa [stateInv, pointIds, reduce, replace_map_id] using hlt
  | ClearPoints =>
      have hid : pointIds (reduce s Action.ClearPoints) = pointIds s := by
        simp only [pointIds, reduce, List.map_map]
        rfl
      refine ⟨by rw [hid]; exact hnd, ?_⟩
      intro i hi
      rw [hid] at hi
      exact hlt i hi
  | AddPoint atIndex coordinate isInit =>
      have hperm : (pointIds (reduce s (Action.AddPoint atIndex coordinate isInit))).Perm
          (s.nextId :: pointIds s) := by
        simp only [pointIds, reduce]
        rw [assignRolesAux_map_id]
        exact spliceInsert_map_id_perm _ _ _
      have hnotin : s.nextId ∉ pointIds s := fun hmem => absurd (hlt _ hmem) (lt_irrefl _)
      refine ⟨hperm.nodup_iff.mpr (List.nodup_cons.mpr ⟨hnotin, hnd⟩), ?_⟩
      intro i hi
      have hnext : (reduce s (Action.AddPoint atIndex coordinate isInit)).nextId = s.nextId + 1 := by
        simp [reduce]
      rw [hnext]
      rcases List.mem_cons.mp (hperm.mem_iff.mp hi) with rfl | hi2
      · omega
      · exact lt_trans (hlt i hi2) (by omega)
  | RemovePoint p =>
      have hsub : pointIds (reduce s (Action.RemovePoint p)) =
          (s.queryPoints.filter fun q => q.id != p.id).map (fun q => q.id) := by
        simp only [pointIds, reduce]
        rw [assignRolesAux_map_id]
      have hsubl : ((s.queryPoints.filter fun q => q.id != p.id).map fun q => q.id).Sublist
          (pointIds s) := List.Sublist.map _ (List.filter_sublist _)
      refine ⟨?_, ?_⟩
      · rw [hsub]
        exact List.Nodup.sublist hsubl hnd
      · intro i hi
        rw [hsub] at hi
        exact hlt i (hsubl.mem hi)
  | InfoReceived r => exact ⟨hnd, hlt⟩
  | SetVehicle v => exact ⟨hnd, hlt⟩
  | RouteReceived => exact ⟨hnd, hlt⟩
  | ClearRoute => exact ⟨hnd, hlt⟩

/-- AddPoint recolors every waypoint against the post-insertion length,
so the role/color invariant holds afterwards unconditionally. -/
lemma rolesColorsOk_addPoint (s : QueryStoreState) (atIndex : Int) (c : Coordinate) (b : Bool) :
    rolesColorsOk (reduce s (Action.AddPoint atIndex c b)).queryPoints = true := by
  simp only [reduce, rolesColorsOk]
  rw [assignRolesAux_length]
  exact rolesColorsOkAux_assign _ 0 _

/-- RemovePoint recolors against `length - 1`, which matches the
filtered list's length exactly when the removed id was present (once). -/
lemma rolesColorsOk_removePoint (s : QueryStoreState) (p : QueryPoint)
    (hnd : ((s.queryPoints.map fun q => q.id).Nodup))
    (hmem : ∃ q ∈ s.queryPoints, q.id = p.id) :
    rolesColorsOk (reduce s (Action.RemovePoint p)).queryPoints = true := by
  have hlen : (s.queryPoints.filter fun q => q.id != p.id).length = s.queryPoints.length - 1 :=
    filter_ne_length_of_mem _ _ hnd hmem
  simp only [reduce, rolesColorsOk]
  rw [assignRolesAux_length, hlen]
  exact rolesColorsOkAux_assign _ 0 _

lemma validSeq_roles : ∀ (acts : List Action) (s : QueryStoreState),
    stateInv s → rolesColorsOk s.queryPoints = true → validAddRemoveSeq s acts = true →
    stateInv (applyActions s acts) ∧ rolesColorsOk (applyActions s acts).queryPoints = true
  | [], _, hinv, hroles, _ => ⟨hinv, hroles⟩
  | a :: rest, s, hinv, hroles, hvalid => by
    simp only [validAddRemoveSeq, Bool.and_eq_true] at hvalid
    obtain ⟨⟨hkind, htarget⟩, hrest⟩ := hvalid
    have hinv2 := stateInv_reduce s a hinv
    have hroles2 : rolesColorsOk (reduce s a).queryPoints = true := by
      cases a with
      | SetPoint p => simp [isAddRemove] at hkind
      | InvalidatePoint p => simp [isAddRemove] at hkind
      | ClearPoints => simp [isAddRemove] at hkind
      | AddPoint i c b => exact rolesColorsOk_addPoint s i c b
      | RemovePoint p =>
          refine rolesColorsOk_removePoint s p hinv.1 ?_
          simpa [removeTargetPresent] using htarget
      | InfoReceived r => simp [isAddRemove] at hkind
      | SetVehicle v => simp [isAddRemove] at hkind
      | RouteReceived => simp [isAddRemove] at hkind
      | ClearRoute => simp [isAddRemove] at hkind
    have hrec := validSeq_roles rest (reduce s a) hinv2 hroles2 hrest
    simpa [applyActions, List.foldl_cons] using hrec

lemma stateInv_initial : stateInv getInitialState := by
  unfold stateInv
  exact ⟨by decide, by decide⟩

lemma rolesColorsOk_initial : rolesColorsOk getInitialState.queryPoints = true := by decide

lemma stateInv_applyActions : ∀ (acts : List Action) (s : QueryStoreState),
    stateInv s → stateInv (applyActions s acts)
  | [], _, h => h
  | a :: rest, s, h => by
    have hrec := stateInv_applyActions rest (reduce s a) (stateInv_reduce s a h)
    simpa [applyActions, List.foldl_cons] using hrec

/-- The guard of `routeIfAllPointsSet` in spec terms: a request is
emitted exactly when there are at least two waypoints, all initialized,
and the selected vehicle is defined; the TypeError path is taken exactly
when the first two conditions hold but the vehicle is undefined. -/
lemma routeIfAllPointsSet_spec (s : QueryStoreState) :
    ((∃ args, routeIfAllPointsSet s = Except.ok (some args)) ↔
      (2 ≤ s.queryPoints.length ∧ (∀ p ∈ s.queryPoints, p.isInitialized = true)
        ∧ s.routingVehicle.isSome = true))
    ∧ ((∃ e, routeIfAllPointsSet s = Except.error e) ↔
      (2 ≤ s.queryPoints.length ∧ (∀ p ∈ s.queryPoints, p.isInitialized = true)
        ∧ s.routingVehicle = none)) := by
  unfold routeIfAllPointsSet
  split_ifs with h
  · obtain ⟨h1, h2⟩ := h
    have hlen : 2 ≤ s.queryPoints.length := by omega
    have hall : ∀ p ∈ s.queryPoints, p.isInitialized = true := by
      intro p hp
      simpa using List.all_eq_true.mp h2 p hp
    cases hv : s.routingVehicle with
    | some v =>
        simp [hlen]
        exact hall
    | none =>
        simp [hlen]
        exact hall
  · have hnot : ¬(2 ≤ s.queryPoints.length ∧ ∀ p ∈ s.queryPoints, p.isInitialized = true) := by
      rintro ⟨h1, h2⟩
      exact h ⟨by omega, List.all_eq_true.mpr (fun p hp => by simpa using h2 p hp)⟩
    constructor
    · constructor
      · rintro ⟨args, habs⟩
        simp at habs
      · rintro ⟨ha, hb, hc⟩
        exact absurd ⟨ha, hb⟩ hnot
    · constructor
      · rintro ⟨e, habs⟩
        simp at habs
      · rintro ⟨ha, hb, hc⟩
        exact absurd ⟨ha, hb⟩ hnot

/-! ## Claim theorems -/

/-- Claim C3 (confirmed): `decodePath` applied to the reference string
`"_p~iF~ps|U_ulLnnqC_mqNvxq\x60@"` in the 2-D variant yields exactly the
coordinates `[[-120.2, 38.5], [-120.95, 40.7], [-126.453, 43.252]]`,
each point in `[lng, lat]` order.  The equality is exact in ℚ, which is
stronger than the claimed 1e-5 tolerance. -/
theorem decodePath_reference_vector :
    decodePath encodedExample false = [[-120.2, 38.5], [-120.95, 40.7], [-126.453, 43.252]] := by
  have h : decodePath encodedExample false =
      [[((-12020000 : Int) : ℚ) / 100000, ((3850000 : Int) : ℚ) / 100000],
       [((-12095000 : Int) : ℚ) / 100000, ((4070000 : Int) : ℚ) / 100000],
       [((-12645300 : Int) : ℚ) / 100000, ((4325200 : Int) : ℚ) / 100000]] := rfl
  rw [h]
  norm_num

/-- Claim C7 (corrected): every field of the request body built by
`createRequest` is the fixed default, `points` is exactly the caller's
points, and `vehicle` is the caller's vehicle when it is present and
non-empty, `"car"` when it is absent *or the empty string* (JavaScript
`args.vehicle || 'car'` treats the empty string as falsy).  No other
argument (host, basePath, key, points_encoded) influences the body. -/
theorem createRequest_body (args : RoutingArgs) :
    (createRequest args).points = args.points
    ∧ (createRequest args).vehicle =
        (match args.vehicle with
         | some v => if v = "" then "car" else v
         | none => "car")
    ∧ (createRequest args).locale = "en"
    ∧ (createRequest args).debug = false
    ∧ (createRequest args).points_encoded = true
    ∧ (createRequest args).instructions = true
    ∧ (createRequest args).elevation = false
    ∧ (createRequest args).optimize = "false"
    ∧ (createRequest args).alternative_route_max_paths = 2
    ∧ (createRequest args).ch_disable = true
    ∧ (createRequest args).algorithm = "alternative_route" := by
  cases h : args.vehicle <;>
    simp [createRequest, jsOrString, h]

/-- Claim C7, counterexample to the claim as stated: a caller whose
vehicle is present but equal to `""` does not get its own vehicle into
the body — the body says `"car"`. -/
theorem createRequest_empty_vehicle_cex :
    (createRequest { points := [], vehicle := some "" }).vehicle = "car"
    ∧ ("car" : String) ≠ "" := by
  constructor
  · rfl
  · decide

/-- Claim C5 (confirmed): `ClearPoints` rewrites every waypoint with
`queryText := ""` and `isInitialized := false` and touches nothing else:
the record update leaves `coordinate` (the stale coordinate), `id`,
`color` and `type` unchanged, and the state's `nextId` and selected
vehicle are preserved. -/
theorem clearPoints_resets_text_and_init (s : QueryStoreState) (j : Nat) :
    ((reduce s Action.ClearPoints).queryPoints[j]?) =
      (s.queryPoints[j]?).map (fun p => { p with queryText := "", isInitialized := false })
    ∧ (reduce s Action.ClearPoints).nextId = s.nextId
    ∧ (reduce s Action.ClearPoints).routingVehicle = s.routingVehicle := by
  refine ⟨?_, rfl, rfl⟩
  simp [reduce]

/-- Claim C4 (confirmed): each populated instruction geometry is the
slice of the path's decoded coordinates from `startIdx` through
`endIdx` *inclusive* (the elements at indices `startIdx ≤ i ≤ endIdx`
that exist); when `endIdx` is in range the slice has exactly
`endIdx + 1 - startIdx` points. -/
theorem instruction_geometry_inclusive (path : RoutePath) (j : Nat) (instr : Instruction)
    (h : path.instructions[j]? = some instr) :
    ∃ instr', (setPointsOnInstructions path)[j]? = some instr'
      ∧ instr'.points =
          (List.range' instr.interval.1 (instr.interval.2 + 1 - instr.interval.1)).filterMap
            (fun i => path.points.coordinates[i]?)
      ∧ (instr.interval.2 < path.points.coordinates.length →
          instr'.points.length = instr.interval.2 + 1 - instr.interval.1) := by
  refine ⟨{ instr with
      points := jsSlice path.points.coordinates instr.interval.1 (instr.interval.2 + 1) },
    ?_, ?_, ?_⟩
  · simp [setPointsOnInstructions, h]
  · simp [jsSlice, drop_take_eq_filterMap_range]
  · intro hb
    simp only [jsSlice, List.length_take, List.length_drop]
    omega

/-- Claim C4, witness: an instruction with `interval = [0, 2]` over a
5-point path yields exactly 3 points. -/
theorem instruction_geometry_inclusive_witness :
    ∃ instr', (setPointsOnInstructions examplePath)[0]? = some instr'
      ∧ instr'.points.length = 3 := by
  obtain ⟨instr', h1, _h2, h3⟩ :=
    instruction_geometry_inclusive examplePath 0 exampleInstruction (by rfl)
  refine ⟨instr', h1, ?_⟩
  rw [h3 (by decide)]
  rfl

/-- Claim C1 (corrected): a route request is emitted exactly when the
action is one of the four route-triggering kinds (SetPoint, AddPoint,
RemovePoint, SetVehicle), the resulting state has at least two
waypoints, all initialized, *and* the resulting state's selected vehicle
is defined; when the first conditions hold but the vehicle is still the
JavaScript `undefined`, the transition throws a TypeError instead of
emitting (second iff).  In particular no request fires with one waypoint
or an uninitialized waypoint, and a request does fire on the triggering
transition that completes initialization once a vehicle is defined.  The
claim's unrestricted "for every transition" iff fails on both counts:
see the counterexample. -/
theorem route_request_iff (s : QueryStoreState) (a : Action) :
    ((∃ args, emitsRoute s a = Except.ok (some args)) ↔
        (isRouteTriggering a = true
          ∧ 2 ≤ (reduce s a).queryPoints.length
          ∧ (∀ p ∈ (reduce s a).queryPoints, p.isInitialized = true)
          ∧ (reduce s a).routingVehicle.isSome = true))
    ∧ ((∃ e, emitsRoute s a = Except.error e) ↔
        (isRouteTriggering a = true
          ∧ 2 ≤ (reduce s a).queryPoints.length
          ∧ (∀ p ∈ (reduce s a).queryPoints, p.isInitialized = true)
          ∧ (reduce s a).routingVehicle = none)) := by
  cases a with
  | SetPoint p =>
      simpa [emitsRoute, isRouteTriggering] using
        routeIfAllPointsSet_spec (reduce s (Action.SetPoint p))
  | AddPoint i c b =>
      simpa [emitsRoute, isRouteTriggering] using
        routeIfAllPointsSet_spec (reduce s (Action.AddPoint i c b))
  | RemovePoint p =>
      simpa [emitsRoute, isRouteTriggering] using
        routeIfAllPointsSet_spec (reduce s (Action.RemovePoint p))
  | SetVehicle v =>
      simpa [emitsRoute, isRouteTriggering] using
        routeIfAllPointsSet_spec (reduce s (Action.SetVehicle v))
  | InvalidatePoint p => simp [emitsRoute, isRouteTriggering]
  | ClearPoints => simp [emitsRoute, isRouteTriggering]
  | InfoReceived r => simp [emitsRoute, isRouteTriggering]
  | RouteReceived => simp [emitsRoute, isRouteTriggering]
  | ClearRoute => simp [emitsRoute, isRouteTriggering]

/-- Claim C1, counterexample to the claim as stated, in both directions:
an `InfoReceived` transition out of a fully-initialized two-waypoint
state leaves the state route-ready yet emits nothing; and a SetPoint
transition on a route-ready state whose selected vehicle is undefined
throws a TypeError instead of emitting a request. -/
theorem route_request_iff_cex :
    (2 ≤ (reduce stateAllSet (Action.InfoReceived infoCarOnly)).queryPoints.length
      ∧ (∀ p ∈ (reduce stateAllSet (Action.InfoReceived infoCarOnly)).queryPoints,
          p.isInitialized = true)
      ∧ emitsRoute stateAllSet (Action.InfoReceived infoCarOnly) = Except.ok none)
    ∧ (2 ≤ (reduce readyNoVehicleState setPointA).queryPoints.length
      ∧ (∀ p ∈ (reduce readyNoVehicleState setPointA).queryPoints, p.isInitialized = true)
      ∧ emitsRoute readyNoVehicleState setPointA
          = Except.error "TypeError: cannot read key of undefined") := by
  refine ⟨⟨by decide, by decide, rfl⟩, ⟨by decide, by decide, rfl⟩⟩

/-- Claim C2 (corrected): for every sequence of AddPoint / RemovePoint
actions from the initial state *in which each RemovePoint names an id
present at the time it is applied*, every waypoint's role is Start at
index 0, End at the last index, Via in the interior (`specRole`), and
its color is the marker color of that role.  Without the presence
precondition the invariant fails: see the counterexample. -/
theorem addRemove_roles_colors (acts : List Action)
    (h : validAddRemoveSeq getInitialState acts = true) :
    rolesColorsOk (applyActions getInitialState acts).queryPoints = true :=
  (validSeq_roles acts getInitialState stateInv_initial rolesColorsOk_initial h).2

/-- Claim C2, witness: an insertion in the middle followed by removal of
the original start point keeps the role/color invariant. -/
theorem addRemove_roles_colors_witness :
    validAddRemoveSeq getInitialState
        [Action.AddPoint 1 { lat := 6, lng := 5 } true,
         Action.RemovePoint (getEmptyPoint 0 QueryPointType.From)] = true
    ∧ rolesColorsOk (applyActions getInitialState
        [Action.AddPoint 1 { lat := 6, lng := 5 } true,
         Action.RemovePoint (getEmptyPoint 0 QueryPointType.From)]).queryPoints = true :=
  ⟨by decide, addRemove_roles_colors _ (by decide)⟩

/-- Claim C2, counterexample to the claim as stated: removing an absent
id (99) from the initial two-waypoint state removes nothing but
recomputes roles against `length - 1`, leaving a two-waypoint list whose
last element is Via instead of End. -/
theorem addRemove_roles_colors_cex :
    (applyActions getInitialState
        [Action.RemovePoint (getEmptyPoint 99 QueryPointType.Via)]).queryPoints.length = 2
    ∧ ((applyActions getInitialState
        [Action.RemovePoint (getEmptyPoint 99 QueryPointType.Via)]).queryPoints[1]?).map
          (fun p => p.type) ≠ some QueryPointType.To := by
  exact ⟨by decide, by decide⟩

/-- Claim C6 (confirmed): `nextId` is bumped by exactly one on AddPoint
and unchanged by every other action (so it never decreases and
allocation points are exactly the AddPoints), and in every state
reachable from the initial state the waypoint ids are pairwise distinct
and strictly below `nextId` — hence a freshly allocated id can never
collide with any id ever present before. -/
theorem nextId_monotone_and_ids_unique :
    (∀ (s : QueryStoreState) (a : Action),
        (reduce s a).nextId = s.nextId + (if isAddPoint a then 1 else 0))
    ∧ (∀ acts : List Action,
        (pointIds (applyActions getInitialState acts)).Nodup
        ∧ ∀ i ∈ pointIds (applyActions getInitialState acts),
            i < (applyActions getInitialState acts).nextId) := by
  constructor
  · intro s a
    cases a <;> simp [reduce, isAddPoint]
  · intro acts
    exact stateInv_applyActions acts getInitialState stateInv_initial

/-- Claim C8 (confirmed): `InfoReceived` stores the vehicle with key
`"car"` when one is in the list, otherwise the first element of the
list; the waypoints and `nextId` are untouched and no route request is
emitted. -/
theorem infoReceived_selects_profile (s : QueryStoreState) (info : ApiInfo) :
    ((∃ v ∈ info.vehicles, v.key = "car") →
        ∃ v, v ∈ info.vehicles ∧ v.key = "car"
          ∧ (reduce s (Action.InfoReceived info)).routingVehicle = some v)
    ∧ ((∀ v ∈ info.vehicles, v.key ≠ "car") →
        (reduce s (Action.InfoReceived info)).routingVehicle = info.vehicles[0]?)
    ∧ (reduce s (Action.InfoReceived info)).queryPoints = s.queryPoints
    ∧ (reduce s (Action.InfoReceived info)).nextId = s.nextId
    ∧ emitsRoute s (Action.InfoReceived info) = Except.ok none := by
  refine ⟨?_, ?_, rfl, rfl, rfl⟩
  · intro hex
    have hsome : (info.vehicles.find? fun v => v.key == "car").isSome := by
      rw [List.find?_isSome]
      obtain ⟨v, hv, hkey⟩ := hex
      exact ⟨v, hv, by simpa using hkey⟩
    obtain ⟨v, hfind⟩ := Option.isSome_iff_exists.mp hsome
    refine ⟨v, List.mem_of_find?_eq_some hfind, by simpa using List.find?_some hfind, ?_⟩
    simp [reduce, hfind]
  · intro hnone
    have hfind : (info.vehicles.find? fun v => v.key == "car") = none := by
      rw [List.find?_eq_none]
      intro v hv
      simpa using hnone v hv
    simp [reduce, hfind]

/-- Claim C8, witness: with a vehicles list containing `car`, the stored
profile is that car vehicle. -/
theorem infoReceived_selects_profile_witness :
    ∃ v, v ∈ infoCarOnly.vehicles ∧ v.key = "car"
      ∧ (reduce getInitialState (Action.InfoReceived infoCarOnly)).routingVehicle = some v :=
  (infoReceived_selects_profile getInitialState infoCarOnly).1 (by decide)

/-- Claim C9 (confirmed): a RemovePoint whose id does not occur removes
no waypoint (ids and length preserved), yet roles are recomputed against
`length - 1`, so with at least two waypoints the last index is assigned
Via rather than End — the Start/End invariant after RemovePoint needs
the presence precondition. -/
theorem removePoint_absent_id (s : QueryStoreState) (point : QueryPoint)
    (habs : ∀ p ∈ s.queryPoints, p.id ≠ point.id) :
    (reduce s (Action.RemovePoint point)).queryPoints.map (fun p => p.id)
        = s.queryPoints.map (fun p => p.id)
    ∧ (reduce s (Action.RemovePoint point)).queryPoints.length = s.queryPoints.length
    ∧ (2 ≤ s.queryPoints.length →
        ((reduce s (Action.RemovePoint point)).queryPoints[s.queryPoints.length - 1]?).map
            (fun p => p.type) = some QueryPointType.Via) := by
  have hfilter : s.queryPoints.filter (fun q => q.id != point.id) = s.queryPoints := by
    rw [List.filter_eq_self]
    intro q hq
    simpa using habs q hq
  refine ⟨?_, ?_, ?_⟩
  · simp only [reduce, hfilter]
    rw [assignRolesAux_map_id]
  · simp only [reduce, hfilter]
    rw [assignRolesAux_length]
  · intro h2
    have hj : s.queryPoints.length - 1 < s.queryPoints.length := by omega
    have hvia : getPointType (s.queryPoints.length - 1) (s.queryPoints.length - 1)
        = QueryPointType.Via := by
      unfold getPointType
      split_ifs with hA hB
      · omega
      · omega
      · rfl
    simp only [reduce, hfilter]
    rw [assignRolesAux_getElem]
    rw [List.getElem?_eq_getElem hj]
    simp [hvia]

/-- Claim C9, witness: removing id 99 from the initial state leaves the
last of its two waypoints marked Via. -/
theorem removePoint_absent_id_witness :
    ((reduce getInitialState
        (Action.RemovePoint (getEmptyPoint 99 QueryPointType.Via))).queryPoints[getInitialState.queryPoints.length - 1]?).map
      (fun p => p.type) = some QueryPointType.Via :=
  (removePoint_absent_id getInitialState (getEmptyPoint 99 QueryPointType.Via)
      (by decide)).2.2 (by decide)

/-- Claim C10 (confirmed): when no vehicle is keyed `"car"`, the reducer
stores `vehicles[0]` — an access that yields a vehicle exactly when the
list is non-empty, so non-emptiness is required for the stored profile
to be a well-defined vehicle (otherwise it is the JavaScript
`undefined`, modelled as `none`). -/
theorem infoReceived_empty_vehicles_bounds (s : QueryStoreState) (info : ApiInfo)
    (hnc : ∀ v ∈ info.vehicles, v.key ≠ "car") :
    (reduce s (Action.InfoReceived info)).routingVehicle = info.vehicles[0]?
    ∧ (((reduce s (Action.InfoReceived info)).routingVehicle).isSome ↔ info.vehicles ≠ []) := by
  have hfind : (info.vehicles.find? fun v => v.key == "car") = none := by
    rw [List.find?_eq_none]
    intro v hv
    simpa using hnc v hv
  have h1 : (reduce s (Action.InfoReceived info)).routingVehicle = info.vehicles[0]? := by
    simp [reduce, hfind]
  refine ⟨h1, ?_⟩
  rw [h1]
  cases info.vehicles with
  | nil => simp
  | cons v rest => simp

/-- Claim C10, witness: a car-less, non-empty vehicles list stores its
first vehicle. -/
theorem infoReceived_empty_vehicles_bounds_witness :
    (reduce stateAllSet (Action.InfoReceived infoBikeOnly)).routingVehicle
        = infoBikeOnly.vehicles[0]?
    ∧ (((reduce stateAllSet (Action.InfoReceived infoBikeOnly)).routingVehicle).isSome
        ↔ infoBikeOnly.vehicles ≠ []) :=
  infoReceived_empty_vehicles_bounds stateAllSet infoBikeOnly (by decide)

end GH
